import Mathlib

/-!
Shallow embedding of the Syllogix deductive core:
`framework/models.py` (Proposition, Syllogism, ReasoningStep, ReasoningChain)
and `framework/engines/deductive.py` (DeductiveEngine), together with
theorems settling the specification claims about them.

Python dataclasses become Lean structures; `None`-able fields become
`Option`; the engine's ordered dict of mood validators becomes an ordered
association list; in-place mutation of a step becomes a function
`ReasoningStep → ReasoningStep`.
-/

namespace Syllogix

/-- The closed quantifier enumeration of `models.py` (string literals
`"All"`, `"No"`, `"Some"`, `"Some...not"`, `"Statistical"` in the source). -/
inductive Quantifier where
  | All
  | No
  | Som
  | SomeNot
  | Statistical
  deriving DecidableEq, Repr

/-- `models.Proposition`: a quantified subject-predicate statement.
`stat_value` models the optional `dict[str, Any]` payload of statistical
propositions as an association list; it is never consulted by the
deductive core. -/
structure Proposition where
  quantifier : Quantifier
  subject : String
  predicate : String
  is_negated : Bool := false
  stat_value : Option (List (String × Nat)) := none
  deriving DecidableEq, Repr

/-- `models.ReasoningType`. -/
inductive ReasoningType where
  | Deductive
  | Observation
  deriving DecidableEq, Repr

/-- `models.RAGSource`. -/
structure RAGSource where
  source_id : String
  text : String
  url : Option String := none
  deriving DecidableEq, Repr

/-- `models.Syllogism`. -/
structure Syllogism where
  major_premise : Option Proposition := none
  minor_premise : Option Proposition := none
  conclusion : Option Proposition := none
  deriving DecidableEq, Repr

/-- `models.ReasoningStep`.  The float `confidence` only ever carries the
exact values the code assigns (default `1.0`, validator writes `1.0`), so
it is modelled as a rational number. -/
structure ReasoningStep where
  step_id : Int
  question : String
  reasoning_type : ReasoningType
  rag_sources : List RAGSource := []
  syllogism : Option Syllogism := none
  mood : Option String := none
  is_valid : Bool := false
  confidence : ℚ := 1
  summary : String := ""
  deriving DecidableEq, Repr

/-- `models.ReasoningChain`. -/
structure ReasoningChain where
  main_query : String
  steps : List ReasoningStep := []
  final_conclusion_summary : Option String := none
  deriving DecidableEq, Repr

/-- `ReasoningChain.add_step`. -/
def add_step (chain : ReasoningChain) (step : ReasoningStep) : ReasoningChain :=
  { chain with steps := chain.steps ++ [step] }

/-! ### The mood validators of `DeductiveEngine` (deductive.py)

Each `_validate_<mood>` method takes `(major, minor)` and returns
`Proposition | None`; Python method names lose their leading underscore. -/

/-- `_validate_barbara`: AAA-1: All M are P, All S are M -> All S are P. -/
def validate_barbara (major minor : Proposition) : Option Proposition :=
  if major.quantifier = .All ∧ minor.quantifier = .All ∧
      major.subject = minor.predicate then
    some { quantifier := .All, subject := minor.subject, predicate := major.predicate }
  else
    none

/-- `_validate_celarent`: EAE-1: No M are P, All S are M -> No S are P. -/
def validate_celarent (major minor : Proposition) : Option Proposition :=
  if major.quantifier = .No ∧ minor.quantifier = .All ∧
      major.subject = minor.predicate then
    some { quantifier := .No, subject := minor.subject, predicate := major.predicate }
  else
    none

/-- `_validate_cesare`: EAE-2: No P are M, All S are M -> No S are P. -/
def validate_cesare (major minor : Proposition) : Option Proposition :=
  if major.quantifier = .No ∧ minor.quantifier = .All ∧
      major.predicate = minor.predicate then
    some { quantifier := .No, subject := minor.subject, predicate := major.subject }
  else
    none

/-- `_validate_darii`: AII-1: All M are P, Some S are M -> Some S are P. -/
def validate_darii (major minor : Proposition) : Option Proposition :=
  if major.quantifier = .All ∧ minor.quantifier = .Som ∧
      major.subject = minor.predicate then
    some { quantifier := .Som, subject := minor.subject, predicate := major.predicate }
  else
    none

/-- `_validate_ferio`: EIO-1: No M are P, Some S are M -> Some S are not P. -/
def validate_ferio (major minor : Proposition) : Option Proposition :=
  if major.quantifier = .No ∧ minor.quantifier = .Som ∧
      major.subject = minor.predicate then
    some { quantifier := .SomeNot, subject := minor.subject, predicate := major.predicate }
  else
    none

/-- `_validate_camestres`: AEE-2: All P are M, No S are M -> No S are P. -/
def validate_camestres (major minor : Proposition) : Option Proposition :=
  if major.quantifier = .All ∧ minor.quantifier = .No ∧
      major.predicate = minor.predicate then
    some { quantifier := .No, subject := minor.subject, predicate := major.subject }
  else
    none

/-- `_validate_festino`: EIO-2: No P are M, Some S are M -> Some S are not P. -/
def validate_festino (major minor : Proposition) : Option Proposition :=
  if major.quantifier = .No ∧ minor.quantifier = .Som ∧
      major.predicate = minor.predicate then
    some { quantifier := .SomeNot, subject := minor.subject, predicate := major.subject }
  else
    none

/-- `_validate_baroco`: AOO-2: All P are M, Some S are not M -> Some S are not P. -/
def validate_baroco (major minor : Proposition) : Option Proposition :=
  if major.quantifier = .All ∧ minor.quantifier = .SomeNot ∧
      major.predicate = minor.predicate then
    some { quantifier := .SomeNot, subject := minor.subject, predicate := major.subject }
  else
    none

/-- `_validate_darapti`: AAI-3: All M are P, All M are S -> Some S are P. -/
def validate_darapti (major minor : Proposition) : Option Proposition :=
  if major.quantifier = .All ∧ minor.quantifier = .All ∧
      major.subject = minor.subject then
    some { quantifier := .Som, subject := minor.predicate, predicate := major.predicate }
  else
    none

/-- `_validate_felapton`: EAO-3: No M are P, All M are S -> Some S are not P. -/
def validate_felapton (major minor : Proposition) : Option Proposition :=
  if major.quantifier = .No ∧ minor.quantifier = .All ∧
      major.subject = minor.subject then
    some { quantifier := .SomeNot, subject := minor.predicate, predicate := major.predicate }
  else
    none

/-- `_validate_disamis`: IAI-3: Some M are P, All M are S -> Some S are P. -/
def validate_disamis (major minor : Proposition) : Option Proposition :=
  if major.quantifier = .Som ∧ minor.quantifier = .All ∧
      major.subject = minor.subject then
    some { quantifier := .Som, subject := minor.predicate, predicate := major.predicate }
  else
    none

/-- `_validate_datisi`: AII-3: All M are P, Some M are S -> Some S are P. -/
def validate_datisi (major minor : Proposition) : Option Proposition :=
  if major.quantifier = .All ∧ minor.quantifier = .Som ∧
      major.subject = minor.subject then
    some { quantifier := .Som, subject := minor.predicate, predicate := major.predicate }
  else
    none

/-- `_validate_bocardo`: OAO-3: Some M are not P, All M are S -> Some S are not P. -/
def validate_bocardo (major minor : Proposition) : Option Proposition :=
  if major.quantifier = .SomeNot ∧ minor.quantifier = .All ∧
      major.subject = minor.subject then
    some { quantifier := .SomeNot, subject := minor.predicate, predicate := major.predicate }
  else
    none

/-- `_validate_ferison`: EIO-3: No M are P, Some M are S -> Some S are not P. -/
def validate_ferison (major minor : Proposition) : Option Proposition :=
  if major.quantifier = .No ∧ minor.quantifier = .Som ∧
      major.subject = minor.subject then
    some { quantifier := .SomeNot, subject := minor.predicate, predicate := major.predicate }
  else
    none

/-- `_validate_baralipton`: AAI-4: All P are M, All M are S -> Some S are P. -/
def validate_baralipton (major minor : Proposition) : Option Proposition :=
  if major.quantifier = .All ∧ minor.quantifier = .All ∧
      major.predicate = minor.subject then
    some { quantifier := .Som, subject := minor.predicate, predicate := major.subject }
  else
    none

/-- `_validate_celantes`: EAE-4: No P are M, All M are S -> No S are P. -/
def validate_celantes (major minor : Proposition) : Option Proposition :=
  if major.quantifier = .No ∧ minor.quantifier = .All ∧
      major.predicate = minor.subject then
    some { quantifier := .No, subject := minor.predicate, predicate := major.subject }
  else
    none

/-- `_validate_dabitis`: IAI-4: Some P are M, All M are S -> Some S are P. -/
def validate_dabitis (major minor : Proposition) : Option Proposition :=
  if major.quantifier = .Som ∧ minor.quantifier = .All ∧
      major.predicate = minor.subject then
    some { quantifier := .Som, subject := minor.predicate, predicate := major.subject }
  else
    none

/-- `_validate_fapesmo`: EAO-4: No P are M, Some M are S -> Some S are not P. -/
def validate_fapesmo (major minor : Proposition) : Option Proposition :=
  if major.quantifier = .No ∧ minor.quantifier = .Som ∧
      major.predicate = minor.subject then
    some { quantifier := .SomeNot, subject := minor.predicate, predicate := major.subject }
  else
    none

/-- `DeductiveEngine.__init__`: the `mood_validators` dict.  Python dicts
iterate in insertion order, so the dict is an ordered association list. -/
def mood_validators : List (String × (Proposition → Proposition → Option Proposition)) :=
  [ ("Barbara", validate_barbara),
    ("Celarent", validate_celarent),
    ("Darii", validate_darii),
    ("Ferio", validate_ferio),
    ("Cesare", validate_cesare),
    ("Camestres", validate_camestres),
    ("Festino", validate_festino),
    ("Baroco", validate_baroco),
    ("Darapti", validate_darapti),
    ("Felapton", validate_felapton),
    ("Disamis", validate_disamis),
    ("Datisi", validate_datisi),
    ("Bocardo", validate_bocardo),
    ("Ferison", validate_ferison),
    ("Baralipton", validate_baralipton),
    ("Celantes", validate_celantes),
    ("Dabitis", validate_dabitis),
    ("Fapesmo", validate_fapesmo) ]

/-- The `for mood, validator_func in self.mood_validators.items()` loop of
`DeductiveEngine.validate`: first validator that returns a conclusion wins. -/
def findMood (major minor : Proposition) :
    List (String × (Proposition → Proposition → Option Proposition)) →
    Option (String × Proposition)
  | [] => none
  | (mood, f) :: rest =>
    match f major minor with
    | some conclusion => some (mood, conclusion)
    | none => findMood major minor rest

/-- The `if step.syllogism is not None: step.syllogism.conclusion = conclusion`
write inside the success branch of `validate`. -/
def setConclusion (syl : Option Syllogism) (conclusion : Proposition) : Option Syllogism :=
  match syl with
  | some s => some { s with conclusion := some conclusion }
  | none => none

/-- `DeductiveEngine.validate`.  A Python `Proposition` instance is always
truthy, so `if not major or not minor` is exactly "either is `None`". -/
def validate (step : ReasoningStep) : ReasoningStep :=
  let major : Option Proposition :=
    match step.syllogism with
    | some s => s.major_premise
    | none => none
  let minor : Option Proposition :=
    match step.syllogism with
    | some s => s.minor_premise
    | none => none
  match major, minor with
  | some maj, some min =>
    match findMood maj min mood_validators with
    | some (mood, conclusion) =>
      { step with
          is_valid := true
          syllogism := setConclusion step.syllogism conclusion
          mood := some mood
          confidence := 1 }
    | none =>
      { step with
          is_valid := false
          summary := step.summary ++ " [EngineError: Premises do not form a valid known syllogism]" }
  | _, _ =>
    { step with
        is_valid := false
        summary := step.summary ++ " [EngineError: Missing one or more premises]" }

/-! ### `ReasoningChain.get_proven_premise` (models.py)

The `for step in reversed(self.steps)` loop becomes a recursion over the
reversed step list.  Python string truthiness makes `concl.subject and ...`
require a non-empty string before the normalized comparison; a dataclass
instance is always truthy, so `step.syllogism and step.syllogism.conclusion`
is exactly "present". -/

/-- Python's `s.strip()` on the character list: drop whitespace from both
ends.  (Defined structurally because Lean's `String.trim` does not reduce
in the kernel.) -/
def stripChars (cs : List Char) : List Char :=
  ((cs.dropWhile Char.isWhitespace).reverse.dropWhile Char.isWhitespace).reverse

/-- Python's `s.strip().lower()` as used by `get_proven_premise` to
normalize term labels. -/
def normTerm (s : String) : String :=
  String.mk ((stripChars s.data).map Char.toLower)

/-- The loop body of `get_proven_premise`: `subj` is the raw `subject`
argument (used verbatim as the new subject of a converted proposition),
`target` is `subject.strip().lower()`. -/
def scanSteps (subj target : String) : List ReasoningStep → Option Proposition
  | [] => none
  | step :: rest =>
    match step.syllogism with
    | none => scanSteps subj target rest
    | some syl =>
      match syl.conclusion with
      | none => scanSteps subj target rest
      | some concl =>
        if step.is_valid = false then scanSteps subj target rest
        else if concl.subject ≠ "" ∧ normTerm concl.subject = target then
          some concl
        else if concl.predicate ≠ "" ∧ normTerm concl.predicate = target then
          match concl.quantifier with
          | .No => some { quantifier := .No, subject := subj, predicate := concl.subject }
          | .Som => some { quantifier := .Som, subject := subj, predicate := concl.subject }
          | _ => scanSteps subj target rest
        else
          scanSteps subj target rest

/-- `ReasoningChain.get_proven_premise`.  The Python parameter is annotated
`str` but the body guards `subject is None`, so the argument is modelled as
an `Option String`. -/
def get_proven_premise (chain : ReasoningChain) (subject : Option String) :
    Option Proposition :=
  match subject with
  | none => none
  | some subj => scanSteps subj (normTerm subj) chain.steps.reverse

/-! ### Concrete input builders (mirroring the shapes the test suite builds) -/

/-- A bare proposition with the default `is_negated`/`stat_value`. -/
def prop (q : Quantifier) (s p : String) : Proposition :=
  { quantifier := q, subject := s, predicate := p }

/-- A deductive step carrying exactly a major and a minor premise. -/
def mkDedStep (maj min : Proposition) : ReasoningStep :=
  { step_id := 1
    question := "Q"
    reasoning_type := .Deductive
    syllogism := some { major_premise := some maj, minor_premise := some min } }

/-- A valid step holding only a concluded syllogism (the shape
`test_reasoning_chain.py` builds with `_make_step_with_conclusion`). -/
def mkConclStep (id : Int) (concl : Proposition) : ReasoningStep :=
  { step_id := id
    question := "Q"
    reasoning_type := .Deductive
    syllogism := some { conclusion := some concl }
    is_valid := true }

/-- The conclusion currently stored in a step's syllogism, if any. -/
def conclusionOf (step : ReasoningStep) : Option Proposition :=
  match step.syllogism with
  | some s => s.conclusion
  | none => none

/-- How many of the four cross-premise term positions coincide.  A premise
pair is in standard syllogistic form (three distinct terms, one shared
middle) exactly when this is 1; the mood table is only disjoint on such
pairs. -/
def sharedCount (major minor : Proposition) : ℕ :=
  (if major.subject = minor.subject then 1 else 0) +
  (if major.subject = minor.predicate then 1 else 0) +
  (if major.predicate = minor.subject then 1 else 0) +
  (if major.predicate = minor.predicate then 1 else 0)

/-- One row of the §4.1 table, checked end-to-end through `validate`:
the canonical premise pair is accepted with the row's mood name and the
row's exact conclusion. -/
def tableRow (name : String) (maj min concl : Proposition) : Bool :=
  let r := validate (mkDedStep maj min)
  r.is_valid && r.mood == some name && (conclusionOf r == some concl)

/-! ## Helper lemmas -/

lemma validate_barbara_isSome (major minor : Proposition) :
    (validate_barbara major minor).isSome ↔
      major.quantifier = .All ∧ minor.quantifier = .All ∧
        major.subject = minor.predicate := by
  unfold validate_barbara; split <;> simp_all

lemma validate_celarent_isSome (major minor : Proposition) :
    (validate_celarent major minor).isSome ↔
      major.quantifier = .No ∧ minor.quantifier = .All ∧
        major.subject = minor.predicate := by
  unfold validate_celarent; split <;> simp_all

lemma validate_darii_isSome (major minor : Proposition) :
    (validate_darii major minor).isSome ↔
      major.quantifier = .All ∧ minor.quantifier = .Som ∧
        major.subject = minor.predicate := by
  unfold validate_darii; split <;> simp_all

lemma validate_ferio_isSome (major minor : Proposition) :
    (validate_ferio major minor).isSome ↔
      major.quantifier = .No ∧ minor.quantifier = .Som ∧
        major.subject = minor.predicate := by
  unfold validate_ferio; split <;> simp_all

lemma validate_cesare_isSome (major minor : Proposition) :
    (validate_cesare major minor).isSome ↔
      major.quantifier = .No ∧ minor.quantifier = .All ∧
        major.predicate = minor.predicate := by
  unfold validate_cesare; split <;> simp_all

lemma validate_camestres_isSome (major minor : Proposition) :
    (validate_camestres major minor).isSome ↔
      major.quantifier = .All ∧ minor.quantifier = .No ∧
        major.predicate = minor.predicate := by
  unfold validate_camestres; split <;> simp_all

lemma validate_festino_isSome (major minor : Proposition) :
    (validate_festino major minor).isSome ↔
      major.quantifier = .No ∧ minor.quantifier = .Som ∧
        major.predicate = minor.predicate := by
  unfold validate_festino; split <;> simp_all

lemma validate_baroco_isSome (major minor : Proposition) :
    (validate_baroco major minor).isSome ↔
      major.quantifier = .All ∧ minor.quantifier = .SomeNot ∧
        major.predicate = minor.predicate := by
  unfold validate_baroco; split <;> simp_all

lemma validate_darapti_isSome (major minor : Proposition) :
    (validate_darapti major minor).isSome ↔
      major.quantifier = .All ∧ minor.quantifier = .All ∧
        major.subject = minor.subject := by
  unfold validate_darapti; split <;> simp_all

lemma validate_felapton_isSome (major minor : Proposition) :
    (validate_felapton major minor).isSome ↔
      major.quantifier = .No ∧ minor.quantifier = .All ∧
        major.subject = minor.subject := by
  unfold validate_felapton; split <;> simp_all

lemma validate_disamis_isSome (major minor : Proposition) :
    (validate_disamis major minor).isSome ↔
      major.quantifier = .Som ∧ minor.quantifier = .All ∧
        major.subject = minor.subject := by
  unfold validate_disamis; split <;> simp_all

lemma validate_datisi_isSome (major minor : Proposition) :
    (validate_datisi major minor).isSome ↔
      major.quantifier = .All ∧ minor.quantifier = .Som ∧
        major.subject = minor.subject := by
  unfold validate_datisi; split <;> simp_all

lemma validate_bocardo_isSome (major minor : Proposition) :
    (validate_bocardo major minor).isSome ↔
      major.quantifier = .SomeNot ∧ minor.quantifier = .All ∧
        major.subject = minor.subject := by
  unfold validate_bocardo; split <;> simp_all

lemma validate_ferison_isSome (major minor : Proposition) :
    (validate_ferison major minor).isSome ↔
      major.quantifier = .No ∧ minor.quantifier = .Som ∧
        major.subject = minor.subject := by
  unfold validate_ferison; split <;> simp_all

lemma validate_baralipton_isSome (major minor : Proposition) :
    (validate_baralipton major minor).isSome ↔
      major.quantifier = .All ∧ minor.quantifier = .All ∧
        major.predicate = minor.subject := by
  unfold validate_baralipton; split <;> simp_all

lemma validate_celantes_isSome (major minor : Proposition) :
    (validate_celantes major minor).isSome ↔
      major.quantifier = .No ∧ minor.quantifier = .All ∧
        major.predicate = minor.subject := by
  unfold validate_celantes; split <;> simp_all

lemma validate_dabitis_isSome (major minor : Proposition) :
    (validate_dabitis major minor).isSome ↔
      major.quantifier = .Som ∧ minor.quantifier = .All ∧
        major.predicate = minor.subject := by
  unfold validate_dabitis; split <;> simp_all

lemma validate_fapesmo_isSome (major minor : Proposition) :
    (validate_fapesmo major minor).isSome ↔
      major.quantifier = .No ∧ minor.quantifier = .Som ∧
        major.predicate = minor.subject := by
  unfold validate_fapesmo; split <;> simp_all

/-- Skipping a prefix of validators that all reject the premise pair does
not change the result of the mood search. -/
lemma findMood_of_prefix_none (major minor : Proposition)
    (pre : List (String × (Proposition → Proposition → Option Proposition)))
    (h : ∀ r ∈ pre, r.2 major minor = none)
    (rest : List (String × (Proposition → Proposition → Option Proposition))) :
    findMood major minor (pre ++ rest) = findMood major minor rest := by
  induction pre with
  | nil => rfl
  | cons head tail ih =>
    obtain ⟨name, f⟩ := head
    have hf : f major minor = none := h (name, f) (List.mem_cons_self _ _)
    rw [List.cons_append]
    show (match f major minor with
      | some conclusion => some (name, conclusion)
      | none => findMood major minor (tail ++ rest)) = findMood major minor rest
    rw [hf]
    exact ih fun r hr => h r (List.mem_cons_of_mem _ hr)

/-! ## Claim theorems -/

/-- C1 (counterexample): the §4.1 rule table registered by the engine has
18 moods, not 19 — the traditional 19th (Frisesomorum, EIO-4) is absent —
so no set of 19 canonical premise pairs can be drawn from it. -/
theorem C1_counterexample :
    mood_validators.length = 18 ∧ ¬ mood_validators.length = 19 ∧
    mood_validators.map Prod.fst =
      ["Barbara", "Celarent", "Darii", "Ferio",
       "Cesare", "Camestres", "Festino", "Baroco",
       "Darapti", "Felapton", "Disamis", "Datisi", "Bocardo", "Ferison",
       "Baralipton", "Celantes", "Dabitis", "Fapesmo"] ∧
    ¬ "Frisesomorum" ∈ mood_validators.map Prod.fst := by
  refine ⟨rfl, by decide, rfl, by decide⟩

/-- C1 (amended): for every one of the 18 moods of the §4.1 table, calling
`validate` on a step holding that mood's canonical premise pair yields
`is_valid = true`, the mood's name, and a conclusion with exactly the
quantifier, subject term and predicate term the table specifies
(fig.1/2: S = minor.subject; fig.3/4: S = minor.predicate;
P = major.predicate for fig.1/3 and major.subject for fig.2/4). -/
theorem C1_amended_thm :
    tableRow "Barbara" (prop .All "M" "P") (prop .All "S" "M") (prop .All "S" "P") = true ∧
    tableRow "Celarent" (prop .No "M" "P") (prop .All "S" "M") (prop .No "S" "P") = true ∧
    tableRow "Darii" (prop .All "M" "P") (prop .Som "S" "M") (prop .Som "S" "P") = true ∧
    tableRow "Ferio" (prop .No "M" "P") (prop .Som "S" "M") (prop .SomeNot "S" "P") = true ∧
    tableRow "Cesare" (prop .No "P" "M") (prop .All "S" "M") (prop .No "S" "P") = true ∧
    tableRow "Camestres" (prop .All "P" "M") (prop .No "S" "M") (prop .No "S" "P") = true ∧
    tableRow "Festino" (prop .No "P" "M") (prop .Som "S" "M") (prop .SomeNot "S" "P") = true ∧
    tableRow "Baroco" (prop .All "P" "M") (prop .SomeNot "S" "M") (prop .SomeNot "S" "P") = true ∧
    tableRow "Darapti" (prop .All "M" "P") (prop .All "M" "S") (prop .Som "S" "P") = true ∧
    tableRow "Felapton" (prop .No "M" "P") (prop .All "M" "S") (prop .SomeNot "S" "P") = true ∧
    tableRow "Disamis" (prop .Som "M" "P") (prop .All "M" "S") (prop .Som "S" "P") = true ∧
    tableRow "Datisi" (prop .All "M" "P") (prop .Som "M" "S") (prop .Som "S" "P") = true ∧
    tableRow "Bocardo" (prop .SomeNot "M" "P") (prop .All "M" "S") (prop .SomeNot "S" "P") = true ∧
    tableRow "Ferison" (prop .No "M" "P") (prop .Som "M" "S") (prop .SomeNot "S" "P") = true ∧
    tableRow "Baralipton" (prop .All "P" "M") (prop .All "M" "S") (prop .Som "S" "P") = true ∧
    tableRow "Celantes" (prop .No "P" "M") (prop .All "M" "S") (prop .No "S" "P") = true ∧
    tableRow "Dabitis" (prop .Som "P" "M") (prop .All "M" "S") (prop .Som "S" "P") = true ∧
    tableRow "Fapesmo" (prop .No "P" "M") (prop .Som "M" "S") (prop .SomeNot "S" "P") = true := by
  decide

/-- C2 (counterexample): for major `All A are B` and minor `All B are A`,
the preconditions of both Barbara and Baralipton hold, the two validators
return different conclusions, and the iteration order observably decides
which one the search reports. -/
theorem C2_counterexample :
    validate_barbara (prop .All "A" "B") (prop .All "B" "A") = some (prop .All "B" "B") ∧
    validate_baralipton (prop .All "A" "B") (prop .All "B" "A") = some (prop .Som "A" "A") ∧
    validate_barbara (prop .All "A" "B") (prop .All "B" "A") ≠
      validate_baralipton (prop .All "A" "B") (prop .All "B" "A") ∧
    findMood (prop .All "A" "B") (prop .All "B" "A") mood_validators =
      some ("Barbara", prop .All "B" "B") ∧
    findMood (prop .All "A" "B") (prop .All "B" "A") mood_validators.reverse =
      some ("Baralipton", prop .Som "A" "A") := by
  refine ⟨rfl, rfl, by decide, rfl, rfl⟩

/-- C2 (amended): for premise pairs that share at most one term position
(in particular every standard three-term syllogistic pair), at most one of
the 18 mood rules' preconditions is satisfied, so no two mood validators
can both return a conclusion for the same such premise pair. -/
theorem C2_amended_thm (major minor : Proposition)
    (h : sharedCount major minor ≤ 1)
    (p q : String × (Proposition → Proposition → Option Proposition))
    (hp : p ∈ mood_validators) (hq : q ∈ mood_validators)
    (hps : (p.2 major minor).isSome) (hqs : (q.2 major minor).isSome) :
    p = q := by
  simp only [mood_validators, List.mem_cons, List.not_mem_nil, or_false] at hp hq
  rcases hp with rfl|rfl|rfl|rfl|rfl|rfl|rfl|rfl|rfl|rfl|rfl|rfl|rfl|rfl|rfl|rfl|rfl|rfl <;>
  rcases hq with rfl|rfl|rfl|rfl|rfl|rfl|rfl|rfl|rfl|rfl|rfl|rfl|rfl|rfl|rfl|rfl|rfl|rfl <;>
  first
  | rfl
  | (exfalso
     simp only [validate_barbara_isSome, validate_celarent_isSome, validate_darii_isSome,
       validate_ferio_isSome, validate_cesare_isSome, validate_camestres_isSome,
       validate_festino_isSome, validate_baroco_isSome, validate_darapti_isSome,
       validate_felapton_isSome, validate_disamis_isSome, validate_datisi_isSome,
       validate_bocardo_isSome, validate_ferison_isSome, validate_baralipton_isSome,
       validate_celantes_isSome, validate_dabitis_isSome, validate_fapesmo_isSome] at hps hqs
     obtain ⟨h1, h2, h3⟩ := hps
     obtain ⟨g1, g2, g3⟩ := hqs
     first
     | (simp_all
        done)
     | (unfold sharedCount at h
        split_ifs at h <;> simp_all))

/-- C2 (amended, witness): the Barbara canonical pair shares exactly its
middle term, and Barbara is the unique matching rule on it. -/
theorem C2_amended_witness :
    (("Barbara", validate_barbara) :
      String × (Proposition → Proposition → Option Proposition)) =
    ("Barbara", validate_barbara) :=
  C2_amended_thm (prop .All "M" "P") (prop .All "S" "M") (by decide)
    _ _ (by simp [mood_validators]) (by simp [mood_validators])
    (by decide) (by decide)

/-- C3: when the mood search succeeds on a step's premises, `validate`
sets `is_valid := true`, stores the rule's derived conclusion into the
syllogism, sets the mood name and `confidence := 1.0`, leaving every other
field unchanged; the search honours exactly the first matching rule of the
list (later rules are never consulted), and the list's order is the fixed
Figure 1→4 order. -/
theorem C3_thm (step : ReasoningStep) (syl : Syllogism) (maj min : Proposition)
    (hsy : step.syllogism = some syl) (hmaj : syl.major_premise = some maj)
    (hmin : syl.minor_premise = some min)
    (mood : String) (concl : Proposition)
    (hfind : findMood maj min mood_validators = some (mood, concl)) :
    validate step =
      { step with
        is_valid := true
        mood := some mood
        confidence := 1
        syllogism := some { syl with conclusion := some concl } } ∧
    (∀ (pre post : List (String × (Proposition → Proposition → Option Proposition)))
        (f : Proposition → Proposition → Option Proposition) (name : String),
        (∀ r ∈ pre, r.2 maj min = none) → f maj min = some concl →
        findMood maj min (pre ++ (name, f) :: post) = some (name, concl)) ∧
    mood_validators.map Prod.fst =
      ["Barbara", "Celarent", "Darii", "Ferio",
       "Cesare", "Camestres", "Festino", "Baroco",
       "Darapti", "Felapton", "Disamis", "Datisi", "Bocardo", "Ferison",
       "Baralipton", "Celantes", "Dabitis", "Fapesmo"] := by
  refine ⟨?_, ?_, rfl⟩
  · simp [validate, hsy, hmaj, hmin, hfind, setConclusion]
  · intro pre post f name hpre hf
    rw [findMood_of_prefix_none _ _ pre hpre]
    show (match f maj min with
      | some c => some (name, c)
      | none => findMood maj min post) = some (name, concl)
    rw [hf]

/-- C3 (witness): the Barbara canonical pair exercises the success path. -/
theorem C3_witness :
    validate (mkDedStep (prop .All "M" "P") (prop .All "S" "M")) =
      { mkDedStep (prop .All "M" "P") (prop .All "S" "M") with
        is_valid := true
        mood := some "Barbara"
        confidence := 1
        syllogism := some
          { major_premise := some (prop .All "M" "P")
            minor_premise := some (prop .All "S" "M")
            conclusion := some (prop .All "S" "P") } } :=
  (C3_thm (mkDedStep (prop .All "M" "P") (prop .All "S" "M"))
    { major_premise := some (prop .All "M" "P")
      minor_premise := some (prop .All "S" "M") }
    (prop .All "M" "P") (prop .All "S" "M") rfl rfl rfl
    "Barbara" (prop .All "S" "P") (by decide)).1

/-- C4: when the step's syllogism is absent, or its major or minor premise
is absent, `validate` only flips `is_valid` to `false` and appends the
missing-premises marker to the summary; mood, confidence and the syllogism
(hence its conclusion) are untouched, and a well-formed step is returned. -/
theorem C4_thm (step : ReasoningStep)
    (h : step.syllogism = none ∨
      ∃ syl, step.syllogism = some syl ∧
        (syl.major_premise = none ∨ syl.minor_premise = none)) :
    validate step =
      { step with
        is_valid := false
        summary := step.summary ++ " [EngineError: Missing one or more premises]" } ∧
    (validate step).mood = step.mood ∧
    (validate step).confidence = step.confidence ∧
    (validate step).syllogism = step.syllogism := by
  have key : validate step =
      { step with
        is_valid := false
        summary := step.summary ++ " [EngineError: Missing one or more premises]" } := by
    rcases h with hnone | ⟨syl, hsy, hmm⟩
    · simp [validate, hnone]
    · rcases hmm with h1 | h1 <;>
        cases hmaj : syl.major_premise <;> cases hmin : syl.minor_premise <;>
          simp_all [validate]
  refine ⟨key, ?_, ?_, ?_⟩ <;> rw [key]

/-- C4 (witness): a step with no syllogism at all takes the
missing-premises path. -/
theorem C4_witness :
    validate { step_id := 1, question := "Q", reasoning_type := .Deductive } =
      { ({ step_id := 1, question := "Q", reasoning_type := .Deductive } : ReasoningStep) with
        is_valid := false
        summary := ({ step_id := 1, question := "Q", reasoning_type := .Deductive } :
          ReasoningStep).summary ++ " [EngineError: Missing one or more premises]" } ∧
    (validate { step_id := 1, question := "Q", reasoning_type := .Deductive }).mood =
      ({ step_id := 1, question := "Q", reasoning_type := .Deductive } : ReasoningStep).mood ∧
    (validate { step_id := 1, question := "Q", reasoning_type := .Deductive }).confidence =
      ({ step_id := 1, question := "Q", reasoning_type := .Deductive } : ReasoningStep).confidence ∧
    (validate { step_id := 1, question := "Q", reasoning_type := .Deductive }).syllogism =
      ({ step_id := 1, question := "Q", reasoning_type := .Deductive } : ReasoningStep).syllogism :=
  C4_thm { step_id := 1, question := "Q", reasoning_type := .Deductive } (Or.inl rfl)

/-- C5: when both premises are present but no mood rule matches, `validate`
only flips `is_valid` to `false` and appends the no-matching-mood marker to
the summary; the syllogism is returned unchanged, so a conclusion that was
absent stays absent. -/
theorem C5_thm (step : ReasoningStep) (syl : Syllogism) (maj min : Proposition)
    (hsy : step.syllogism = some syl) (hmaj : syl.major_premise = some maj)
    (hmin : syl.minor_premise = some min)
    (hno : findMood maj min mood_validators = none) :
    validate step =
      { step with
        is_valid := false
        summary := step.summary ++
          " [EngineError: Premises do not form a valid known syllogism]" } ∧
    (validate step).syllogism = some syl ∧
    (syl.conclusion = none → conclusionOf (validate step) = none) := by
  have key : validate step =
      { step with
        is_valid := false
        summary := step.summary ++
          " [EngineError: Premises do not form a valid known syllogism]" } := by
    simp [validate, hsy, hmaj, hmin, hno]
  refine ⟨key, ?_, fun hc => ?_⟩
  · rw [key]; exact hsy
  · rw [key]; simp [conclusionOf, hsy, hc]

/-- C5 (witness): major `All X are Y` and minor `All A are B` share no
term, so no rule matches and the step is rejected with the marker. -/
theorem C5_witness :
    validate (mkDedStep (prop .All "X" "Y") (prop .All "A" "B")) =
      { mkDedStep (prop .All "X" "Y") (prop .All "A" "B") with
        is_valid := false
        summary := (mkDedStep (prop .All "X" "Y") (prop .All "A" "B")).summary ++
          " [EngineError: Premises do not form a valid known syllogism]" } ∧
    (validate (mkDedStep (prop .All "X" "Y") (prop .All "A" "B"))).syllogism =
      some { major_premise := some (prop .All "X" "Y")
             minor_premise := some (prop .All "A" "B") } ∧
    conclusionOf (validate (mkDedStep (prop .All "X" "Y") (prop .All "A" "B"))) = none := by
  have h := C5_thm (mkDedStep (prop .All "X" "Y") (prop .All "A" "B"))
    { major_premise := some (prop .All "X" "Y")
      minor_premise := some (prop .All "A" "B") }
    (prop .All "X" "Y") (prop .All "A" "B") rfl rfl rfl (by decide)
  exact ⟨h.1, h.2.1, h.2.2 rfl⟩

/-- C6 (counterexample): a subject that is empty after trimming is not
special-cased: with a prior valid conclusion whose subject is a lone
blank, querying the whitespace subject "  " (empty once trimmed) scans the
steps and returns that conclusion instead of none. -/
theorem C6_counterexample :
    normTerm "  " = "" ∧
    get_proven_premise ⟨"q", [mkConclStep 1 (prop .All " " "X")], none⟩ (some "  ") =
      some (prop .All " " "X") ∧
    get_proven_premise ⟨"q", [mkConclStep 1 (prop .All " " "X")], none⟩ (some "  ") ≠
      none := by
  refine ⟨rfl, by decide, by decide⟩

/-- C6 (amended): `get_proven_premise` returns none immediately — without
scanning any steps — whenever the subject argument is absent; an empty or
all-whitespace subject is not special-cased and the scan proceeds. -/
theorem C6_amended_thm (chain : ReasoningChain) :
    get_proven_premise chain none = none := rfl

/-- C7: when the scan reaches a qualifying step whose conclusion
predicate-matches the normalized target (and does not subject-match) with
quantifier No or Some, `get_proven_premise` returns a newly constructed
Proposition with the same quantifier, subject equal to the caller's
requested term verbatim, and predicate equal to the original conclusion's
subject; the original conclusion is only read, never modified. -/
theorem C7_thm (chain : ReasoningChain) (subj : String) (step : ReasoningStep)
    (rest : List ReasoningStep) (syl : Syllogism) (concl : Proposition)
    (hrev : chain.steps.reverse = step :: rest)
    (hsy : step.syllogism = some syl) (hc : syl.conclusion = some concl)
    (hv : step.is_valid = true)
    (hnsub : ¬(concl.subject ≠ "" ∧ normTerm concl.subject = normTerm subj))
    (hpne : concl.predicate ≠ "") (hpm : normTerm concl.predicate = normTerm subj)
    (hq : concl.quantifier = .No ∨ concl.quantifier = .Som) :
    get_proven_premise chain (some subj) =
      some { quantifier := concl.quantifier, subject := subj, predicate := concl.subject } := by
  show scanSteps subj (normTerm subj) chain.steps.reverse = _
  rw [hrev]
  rcases hq with h | h <;> simp [scanSteps, hsy, hc, hv, hnsub, hpne, hpm, h]

/-- C7 (witness): prior conclusion `No Dogs are Animals` queried with
"Animals" gives `No Animals are Dogs`; prior conclusion
`Some birds are creatures` queried with "Creatures" (case-insensitive)
gives `Some Creatures are birds`. -/
theorem C7_witness :
    get_proven_premise ⟨"q", [mkConclStep 1 (prop .No "Dogs" "Animals")], none⟩
      (some "Animals") = some (prop .No "Animals" "Dogs") ∧
    get_proven_premise ⟨"q", [mkConclStep 1 (prop .Som "birds" "creatures")], none⟩
      (some "Creatures") = some (prop .Som "Creatures" "birds") :=
  ⟨C7_thm ⟨"q", [mkConclStep 1 (prop .No "Dogs" "Animals")], none⟩ "Animals"
      (mkConclStep 1 (prop .No "Dogs" "Animals")) []
      { conclusion := some (prop .No "Dogs" "Animals") } (prop .No "Dogs" "Animals")
      rfl rfl rfl rfl (by decide) (by decide) (by decide) (Or.inl rfl),
   C7_thm ⟨"q", [mkConclStep 1 (prop .Som "birds" "creatures")], none⟩ "Creatures"
      (mkConclStep 1 (prop .Som "birds" "creatures")) []
      { conclusion := some (prop .Som "birds" "creatures") } (prop .Som "birds" "creatures")
      rfl rfl rfl rfl (by decide) (by decide) (by decide) (Or.inr rfl)⟩

/-- C8: a qualifying step whose conclusion predicate-matches the target
with a non-convertible quantifier (All, Some...not, Statistical) is
skipped and the scan continues on the older steps; concretely, with a
newer `All X are Plants` and an older `Some Plants are Organisms`,
querying "Plants" returns the older `Some Plants are Organisms`, and a
history with only non-convertible matches yields none. -/
theorem C8_thm :
    (∀ (chain : ReasoningChain) (subj : String) (step : ReasoningStep)
        (rest : List ReasoningStep) (syl : Syllogism) (concl : Proposition),
        chain.steps.reverse = step :: rest →
        step.syllogism = some syl → syl.conclusion = some concl →
        step.is_valid = true →
        ¬(concl.subject ≠ "" ∧ normTerm concl.subject = normTerm subj) →
        concl.predicate ≠ "" → normTerm concl.predicate = normTerm subj →
        (concl.quantifier = .All ∨ concl.quantifier = .SomeNot ∨
          concl.quantifier = .Statistical) →
        get_proven_premise chain (some subj) = scanSteps subj (normTerm subj) rest) ∧
    get_proven_premise ⟨"q", [mkConclStep 1 (prop .Som "Plants" "Organisms"),
        mkConclStep 2 (prop .All "X" "Plants")], none⟩ (some "Plants") =
      some (prop .Som "Plants" "Organisms") ∧
    get_proven_premise ⟨"q", [mkConclStep 1 (prop .SomeNot "A" "B")], none⟩ (some "B") =
      none ∧
    get_proven_premise ⟨"q", [mkConclStep 1
        { prop .Statistical "Group1" "Group2" with stat_value := some [("value", 80)] }],
      none⟩ (some "Group2") = none := by
  refine ⟨?_, by decide, by decide, by decide⟩
  intro chain subj step rest syl concl hrev hsy hc hv hnsub hpne hpm hq
  show scanSteps subj (normTerm subj) chain.steps.reverse = _
  rw [hrev]
  rcases hq with h | h | h <;> simp [scanSteps, hsy, hc, hv, hnsub, hpne, hpm, h]

/-- C8 (witness): the newer non-convertible `All X are Plants` step is
skipped, reducing the query to a scan of the older steps. -/
theorem C8_witness :
    get_proven_premise ⟨"q", [mkConclStep 1 (prop .Som "Plants" "Organisms"),
        mkConclStep 2 (prop .All "X" "Plants")], none⟩ (some "Plants") =
      scanSteps "Plants" (normTerm "Plants") [mkConclStep 1 (prop .Som "Plants" "Organisms")] :=
  C8_thm.1 ⟨"q", [mkConclStep 1 (prop .Som "Plants" "Organisms"),
      mkConclStep 2 (prop .All "X" "Plants")], none⟩ "Plants"
    (mkConclStep 2 (prop .All "X" "Plants")) [mkConclStep 1 (prop .Som "Plants" "Organisms")]
    { conclusion := some (prop .All "X" "Plants") } (prop .All "X" "Plants")
    rfl rfl rfl rfl (by decide) (by decide) (by decide) (Or.inl rfl)

/-- C9 (counterexample): subject-match priority does not span the whole
history: with an older conclusion `All Dogs are Mammals` (an exact subject
match for "Dogs") and a newer conclusion `No Cats are Dogs` (a convertible
predicate match), querying "Dogs" returns the converted `No Dogs are Cats`
from the newer step, not the older subject-matching conclusion. -/
theorem C9_counterexample :
    get_proven_premise ⟨"q", [mkConclStep 1 (prop .All "Dogs" "Mammals"),
        mkConclStep 2 (prop .No "Cats" "Dogs")], none⟩ (some "Dogs") =
      some (prop .No "Dogs" "Cats") ∧
    some (prop .No "Dogs" "Cats") ≠ some (prop .All "Dogs" "Mammals") ∧
    (mkConclStep 1 (prop .All "Dogs" "Mammals")).is_valid = true ∧
    conclusionOf (mkConclStep 1 (prop .All "Dogs" "Mammals")) =
      some (prop .All "Dogs" "Mammals") ∧
    normTerm (prop .All "Dogs" "Mammals").subject = normTerm "Dogs" := by
  refine ⟨by decide, by decide, rfl, rfl, rfl⟩

/-- C9 (amended): subject-match priority is per step, not global: at each
step of the reverse scan, an exact (trimmed/case-folded) subject match on
a qualifying conclusion returns that conclusion object unchanged, taking
priority over any predicate-based conversion at that same step and over
everything older. -/
theorem C9_amended_thm (subj target : String) (step : ReasoningStep)
    (rest : List ReasoningStep) (syl : Syllogism) (concl : Proposition)
    (hsy : step.syllogism = some syl) (hc : syl.conclusion = some concl)
    (hv : step.is_valid = true) (hne : concl.subject ≠ "")
    (hm : normTerm concl.subject = target) :
    scanSteps subj target (step :: rest) = some concl := by
  simp [scanSteps, hsy, hc, hv, hne, hm]

/-- C9 (amended, witness): a valid prior conclusion `Some Cats are
Mammals` queried for "Cats" is returned as-is. -/
theorem C9_amended_witness :
    scanSteps "Cats" (normTerm "Cats") [mkConclStep 1 (prop .Som "Cats" "Mammals")] =
      some (prop .Som "Cats" "Mammals") :=
  C9_amended_thm "Cats" (normTerm "Cats") (mkConclStep 1 (prop .Som "Cats" "Mammals")) []
    { conclusion := some (prop .Som "Cats" "Mammals") } (prop .Som "Cats" "Mammals")
    rfl rfl rfl (by decide) rfl

/-- C10: `validate` never touches the premises or the step's identity
fields: step id, question, reasoning type, evidence and both premises are
preserved on every path, and on both failure paths (is_valid comes back
false) mood, confidence and the whole syllogism — conclusion included —
are returned exactly as they came in. -/
theorem C10_thm (step : ReasoningStep) :
    (validate step).step_id = step.step_id ∧
    (validate step).question = step.question ∧
    (validate step).reasoning_type = step.reasoning_type ∧
    (validate step).rag_sources = step.rag_sources ∧
    (validate step).syllogism.map Syllogism.major_premise =
      step.syllogism.map Syllogism.major_premise ∧
    (validate step).syllogism.map Syllogism.minor_premise =
      step.syllogism.map Syllogism.minor_premise ∧
    ((validate step).is_valid = false →
      (validate step).mood = step.mood ∧
      (validate step).confidence = step.confidence ∧
      (validate step).syllogism = step.syllogism) := by
  rcases hsy : step.syllogism with _ | syl
  · simp [validate, hsy]
  · rcases hmaj : syl.major_premise with _ | maj <;>
      rcases hmin : syl.minor_premise with _ | min
    · simp [validate, hsy, hmaj, hmin]
    · simp [validate, hsy, hmaj, hmin]
    · simp [validate, hsy, hmaj, hmin]
    · rcases hf : findMood maj min mood_validators with _ | ⟨mood, concl⟩ <;>
        simp [validate, hsy, hmaj, hmin, hf, setConclusion]

/-- C10 (witness): on the missing-premises failure path, mood, confidence
and the (absent) syllogism survive unchanged. -/
theorem C10_witness :
    (validate { step_id := 1, question := "Q", reasoning_type := .Observation }).mood =
      ({ step_id := 1, question := "Q", reasoning_type := .Observation } : ReasoningStep).mood ∧
    (validate { step_id := 1, question := "Q", reasoning_type := .Observation }).confidence =
      ({ step_id := 1, question := "Q", reasoning_type := .Observation } : ReasoningStep).confidence ∧
    (validate { step_id := 1, question := "Q", reasoning_type := .Observation }).syllogism =
      ({ step_id := 1, question := "Q", reasoning_type := .Observation } : ReasoningStep).syllogism :=
  (C10_thm { step_id := 1, question := "Q", reasoning_type := .Observation }).2.2.2.2.2.2
    (by decide)

end Syllogix
